import Mathlib

/-!
Shallow embedding of the storage-provisioning pipeline of the ignition
repository (src/src/exec/storage.go, src/src/exec/stages/storage/storage.go,
and the systemd unit helpers in src/unnamed/part_000, package util).

Side-effecting code is modelled as pure functions from an oracle environment
(deciding the success of each external operation) and the configuration to a
trace of external events paired with an optional error. Each Lean definition
mirrors one Go function of the source.
-/

namespace Ignition

/-- Partition of config.Disk (config package): number, size and start in
sectors, label, type GUID. Numeric fields are Go int, modelled as Int. -/
structure Partition where
  number : Int
  size : Int
  start : Int
  label : String
  typeGUID : String
deriving Repr, DecidableEq

/-- Disk of config.Storage.Disks: device path, wipe-table flag, partitions. -/
structure Disk where
  device : String
  wipeTable : Bool
  partitions : List Partition
deriving Repr, DecidableEq

/-- RAID array of config.Storage.Arrays. Spares is Go int, modelled as Int. -/
structure Raid where
  name : String
  level : String
  devices : List String
  spares : Int
deriving Repr, DecidableEq

/-- File of config.Filesystem.Files: path, contents, mode, owner. -/
structure File where
  path : String
  contents : String
  mode : Nat
  uid : Int
  gid : Int
deriving Repr, DecidableEq

/-- Filesystem of config.Storage.Filesystems. -/
structure Filesystem where
  device : String
  format : String
  options : List String
  init : Bool
  files : List File
deriving Repr, DecidableEq

/-- Drop-in fragment of config.SystemdUnit.DropIns. -/
structure SystemdUnitDropIn where
  name : String
  contents : String
deriving Repr, DecidableEq

/-- Systemd unit of config.Systemd.Units. -/
structure SystemdUnit where
  name : String
  contents : String
  enable : Bool
  mask : Bool
  dropIns : List SystemdUnitDropIn
deriving Repr, DecidableEq

/-- Networkd unit of config.Networkd.Units. -/
structure NetworkdUnit where
  name : String
  contents : String
deriving Repr, DecidableEq

/-- The slice of config.Config the storage code reads. -/
structure Config where
  disks : List Disk
  arrays : List Raid
  filesystems : List Filesystem
  systemdUnits : List SystemdUnit
  networkdUnits : List NetworkdUnit
deriving Repr, DecidableEq

/-- Partition spec handed to sgdisk.CreatePartition: Length and Offset are
uint64(part.Size) and uint64(part.Start), so Go int values reduced mod 2^64. -/
structure SgdiskPartition where
  number : Int
  length : Nat
  offset : Nat
  label : String
  typeGUID : String
deriving Repr, DecidableEq

/-- The conversion performed at the sgdisk.CreatePartition call site in
createPartitions: uint64 casts of Size and Start. -/
def sgdiskPartitionOfPart (p : Partition) : SgdiskPartition :=
  { number := p.number
    length := (p.size.emod (2 ^ 64)).toNat
    offset := (p.start.emod (2 ^ 64)).toNat
    label := p.label
    typeGUID := p.typeGUID }

/-- One external side effect of the pipeline. Boolean flags record whether the
operation succeeded, as decided by the environment oracle. -/
inductive Event where
  | wait (devs : List String) (ctxt : String) (ok : Bool)
  | sgdiskBegin (dev : String)
  | sgdiskWipeTable (dev : String)
  | sgdiskCreatePartition (dev : String) (p : SgdiskPartition)
  | sgdiskCommit (dev : String) (ok : Bool)
  | cmd (exe : String) (args : List String) (ok : Bool)
  | tempDirCreate (mnt : String)
  | mount (dev : String) (mnt : String) (fstype : String) (ok : Bool)
  | unmount (mnt : String) (ok : Bool)
  | removeDir (mnt : String)
  | writeMountedFile (mnt : String) (f : File) (ok : Bool)
  | writeRootFile (root : String) (f : File) (ok : Bool)
  | mkdirForFile (path : String) (ok : Bool)
  | openAppendCreate (path : String) (mode : Nat) (ok : Bool)
  | appendString (path : String) (s : String) (ok : Bool)
  | symlink (target : String) (path : String) (ok : Bool)
deriving Repr, DecidableEq

/-- Errors returned by the storage functions, mirroring the wrapped Go error
values (identity only, not the formatted message text). -/
inductive Err where
  | waitFailed (ctxt : String)
  | commitFailure (dev : String)
  | mdadmFailed (name : String)
  | unsupportedFormat (format : String)
  | mkfsFailed (mkfs : String)
  | tempDirFailed
  | mountFailed (dev : String) (mnt : String)
  | fileWriteFailed (path : String)
  | createFilesFailed (dev : String) (e : Err)
  | unitWriteFailed (path : String)
  | mkdirFailed (path : String)
  | openFailed (path : String)
  | appendFailed (path : String)
  | symlinkFailed (path : String)
deriving Repr, DecidableEq

/-- Oracle deciding the outcome of every external operation. The temp
directory generator is keyed by the device being populated. -/
structure Env where
  waitOk : List String → String → Bool
  commitOk : String → Bool
  cmdOk : String → List String → Bool
  tempDir : String → Option String
  mountOk : String → String → String → Bool
  unmountOk : String → Bool
  writeMntOk : String → File → Bool
  writeRootOk : String → File → Bool
  mkdirOk : String → Bool
  openOk : String → Bool
  appendOk : String → Bool
  symlinkOk : String → Bool

/-- Result of one effectful function: the trace of external events it emitted
and, when it failed, the error it returned. -/
abbrev Outcome := List Event × Option Err

/-- Runs a loop body over a list, short-circuiting on the first error, as the
Go for-loops with an early return do. -/
def runList (step : α → Outcome) : List α → Outcome
  | [] => ([], none)
  | x :: xs =>
    match step x with
    | (evs, some e) => (evs, some e)
    | (evs, none) =>
      let (rest, r) := runList step xs
      (evs ++ rest, r)

/-- storage.waitOnDevices: waits on the devices; on failure the error is
wrapped naming the context. -/
def waitOnDevices (env : Env) (devs : List String) (ctxt : String) : Outcome :=
  if env.waitOk devs ctxt then
    ([Event.wait devs ctxt true], none)
  else
    ([Event.wait devs ctxt false], some (Err.waitFailed ctxt))

/-- Body of the per-disk loop in storage.createPartitions: sgdisk.Begin,
optional WipeTable, CreatePartition for each declared partition, Commit. -/
def partitionDisk (env : Env) (disk : Disk) : Outcome :=
  let evs :=
    Event.sgdiskBegin disk.device ::
      ((if disk.wipeTable then [Event.sgdiskWipeTable disk.device] else []) ++
        disk.partitions.map (fun p =>
          Event.sgdiskCreatePartition disk.device (sgdiskPartitionOfPart p)))
  if env.commitOk disk.device then
    (evs ++ [Event.sgdiskCommit disk.device true], none)
  else
    (evs ++ [Event.sgdiskCommit disk.device false],
      some (Err.commitFailure disk.device))

/-- storage.createPartitions: early return on no disks, wait on all disk
devices, then partition each disk in order. -/
def createPartitions (env : Env) (cfg : Config) : Outcome :=
  if cfg.disks.isEmpty then ([], none)
  else
    match waitOnDevices env (cfg.disks.map (fun d => d.device)) "disks" with
    | (evs, some e) => (evs, some e)
    | (evs, none) =>
      let (rest, r) := runList (partitionDisk env) cfg.disks
      (evs ++ rest, r)

/-- Argument list built for /sbin/mdadm in storage.createRaids, by the same
sequence of appends as the Go code. -/
def raidArgs (md : Raid) : List String :=
  let args := ["--create", md.name, "--force", "--run", "--level", md.level,
    "--raid-devices", toString ((md.devices.length : Int) - md.spares)]
  let args :=
    if 0 < md.spares then args ++ ["--spare-devices", toString md.spares]
    else args
  args ++ md.devices

/-- Body of the per-array loop in storage.createRaids: one mdadm invocation. -/
def createRaid1 (env : Env) (md : Raid) : Outcome :=
  let args := raidArgs md
  if env.cmdOk "/sbin/mdadm" args then
    ([Event.cmd "/sbin/mdadm" args true], none)
  else
    ([Event.cmd "/sbin/mdadm" args false], some (Err.mdadmFailed md.name))

/-- storage.createRaids: early return on no arrays, wait on all member
devices, then assemble each array in order. -/
def createRaids (env : Env) (cfg : Config) : Outcome :=
  if cfg.arrays.isEmpty then ([], none)
  else
    match
      waitOnDevices env ((cfg.arrays.map (fun a => a.devices)).flatten) "raids"
    with
    | (evs, some e) => (evs, some e)
    | (evs, none) =>
      let (rest, r) := runList (createRaid1 env) cfg.arrays
      (evs ++ rest, r)

/-- The per-file write loop of storage.createFiles: each file is written
below the mount point, stopping at the first failure. -/
def writeFsFiles (env : Env) (mnt : String) : List File → Outcome
  | [] => ([], none)
  | f :: rest =>
    if env.writeMntOk mnt f then
      let (evs, r) := writeFsFiles env mnt rest
      (Event.writeMountedFile mnt f true :: evs, r)
    else
      ([Event.writeMountedFile mnt f false], some (Err.fileWriteFailed f.path))

/-- storage.createFiles: skip when no files; create a temp directory (its
removal is deferred), mount the device there (unmount deferred only after a
successful mount), write each file, then run the deferred unmount and
removal. The deferred unmount result is discarded by the Go code, so the
returned error is whatever the body produced. -/
def createFiles (env : Env) (fs : Filesystem) : Outcome :=
  if fs.files.isEmpty then ([], none)
  else
    match env.tempDir fs.device with
    | none => ([], some Err.tempDirFailed)
    | some mnt =>
      if env.mountOk fs.device mnt fs.format then
        let (evs, r) := writeFsFiles env mnt fs.files
        (Event.tempDirCreate mnt ::
            Event.mount fs.device mnt fs.format true ::
            evs ++ [Event.unmount mnt (env.unmountOk mnt), Event.removeDir mnt],
          r)
      else
        ([Event.tempDirCreate mnt, Event.mount fs.device mnt fs.format false,
            Event.removeDir mnt],
          some (Err.mountFailed fs.device mnt))

/-- The call site of createFiles in storage.createFilesystems, which wraps
its error naming the device. -/
def createFilesWrapped (env : Env) (fs : Filesystem) : Outcome :=
  match createFiles env fs with
  | (evs, some e) => (evs, some (Err.createFilesFailed fs.device e))
  | (evs, none) => (evs, none)

/-- Body of the per-filesystem loop in storage.createFilesystems: when
Initialize is set, select the formatter by format (rejecting others), build
options ++ [force flag] ++ [device] and invoke it; then populate files. -/
def createFs1 (env : Env) (fs : Filesystem) : Outcome :=
  if fs.init then
    match
      (match fs.format with
        | "btrfs" => some ("/sbin/mkfs.btrfs", fs.options ++ ["--force"])
        | "ext4" => some ("/sbin/mkfs.ext4", fs.options ++ ["-F"])
        | _ => none)
    with
    | none => ([], some (Err.unsupportedFormat fs.format))
    | some (mkfs, args0) =>
      let args := args0 ++ [fs.device]
      if env.cmdOk mkfs args then
        let (evs, r) := createFilesWrapped env fs
        (Event.cmd mkfs args true :: evs, r)
      else
        ([Event.cmd mkfs args false], some (Err.mkfsFailed mkfs))
  else
    createFilesWrapped env fs

/-- storage.createFilesystems: early return on no filesystems, wait on all
filesystem devices, then process each entry in order. -/
def createFilesystems (env : Env) (cfg : Config) : Outcome :=
  if cfg.filesystems.isEmpty then ([], none)
  else
    match
      waitOnDevices env (cfg.filesystems.map (fun f => f.device)) "filesystems"
    with
    | (evs, some e) => (evs, some e)
    | (evs, none) =>
      let (rest, r) := runList (createFs1 env) cfg.filesystems
      (evs ++ rest, r)

/-- Modelled from the spec: the fixed systemd units directory, one of the
"fixed, format-defined paths" of section 6; the path helper SystemdUnitsPath
itself is not among the provided sources. The exact string is irrelevant to
the theorems below. -/
def SystemdUnitsPath : String := "/etc/systemd/system"

/-- Modelled from the spec: the per-unit drop-ins subdirectory of section 6;
the helper SystemdDropinsPath is not among the provided sources. -/
def SystemdDropinsPath (unitName : String) : String :=
  SystemdUnitsPath ++ "/" ++ unitName ++ ".d"

/-- Modelled from the spec: the fixed networkd units directory of section 6;
the helper NetworkdUnitsPath is not among the provided sources. -/
def NetworkdUnitsPath : String := "/etc/systemd/network"

/-- Modelled from the spec: the default permission mode used by the unit file
constructors; the constant DefaultFilePermissions is not among the provided
sources. Value 420 is mode 0644. -/
def DefaultFilePermissions : Nat := 420

/-- Modelled from the spec: path joining below the target root (DestDir
JoinPath is not among the provided sources); paths in this code are absolute,
so joining is concatenation after the root. -/
def joinRoot (root path : String) : String := root ++ path

/-- Modelled from the spec: filepath.Join of a directory and a name. -/
def pathJoin (dir name : String) : String := dir ++ "/" ++ name

/-- presetPath of package util (src/unnamed/part_000). -/
def presetPath : String := "/etc/systemd/system-preset/20-ignition.preset"

/-- DefaultPresetPermissions of package util: mode 0644, value 420. -/
def DefaultPresetPermissions : Nat := 420

/-- util.FileFromSystemdUnit: the file holding the unit itself. -/
def FileFromSystemdUnit (unit : SystemdUnit) : File :=
  { path := pathJoin SystemdUnitsPath unit.name
    contents := unit.contents
    mode := DefaultFilePermissions
    uid := 0
    gid := 0 }

/-- util.FileFromNetworkdUnit: the file holding a networkd unit. -/
def FileFromNetworkdUnit (unit : NetworkdUnit) : File :=
  { path := pathJoin NetworkdUnitsPath unit.name
    contents := unit.contents
    mode := DefaultFilePermissions
    uid := 0
    gid := 0 }

/-- util.FileFromUnitDropin: the file holding one drop-in of a unit. -/
def FileFromUnitDropin (unit : SystemdUnit) (dropin : SystemdUnitDropIn) :
    File :=
  { path := pathJoin (SystemdDropinsPath unit.name) dropin.name
    contents := dropin.contents
    mode := DefaultFilePermissions
    uid := 0
    gid := 0 }

/-- The drop-in loop of storage.writeSystemdUnit: drop-ins with empty
contents are skipped, the others are written until the first failure. -/
def writeDropins (env : Env) (root : String) (unit : SystemdUnit) :
    List SystemdUnitDropIn → Outcome
  | [] => ([], none)
  | d :: rest =>
    if d.contents = "" then writeDropins env root unit rest
    else
      let f := FileFromUnitDropin unit d
      if env.writeRootOk root f then
        let (evs, r) := writeDropins env root unit rest
        (Event.writeRootFile root f true :: evs, r)
      else
        ([Event.writeRootFile root f false], some (Err.unitWriteFailed f.path))

/-- storage.writeSystemdUnit: write the drop-ins, then the unit file itself
unless its contents are empty. -/
def writeSystemdUnit (env : Env) (root : String) (unit : SystemdUnit) :
    Outcome :=
  match writeDropins env root unit unit.dropIns with
  | (evs, some e) => (evs, some e)
  | (evs, none) =>
    if unit.contents = "" then (evs, none)
    else
      let f := FileFromSystemdUnit unit
      if env.writeRootOk root f then
        (evs ++ [Event.writeRootFile root f true], none)
      else
        (evs ++ [Event.writeRootFile root f false],
          some (Err.unitWriteFailed f.path))

/-- DestDir.EnableUnit (src/unnamed/part_000): ensure the parent directory of
the preset file, open it for append (created if absent, mode 0644), and
append the enable directive line. -/
def EnableUnit (env : Env) (root : String) (unit : SystemdUnit) : Outcome :=
  let path := joinRoot root presetPath
  if env.mkdirOk path then
    if env.openOk path then
      if env.appendOk path then
        ([Event.mkdirForFile path true,
            Event.openAppendCreate path DefaultPresetPermissions true,
            Event.appendString path ("enable " ++ unit.name ++ "\n") true],
          none)
      else
        ([Event.mkdirForFile path true,
            Event.openAppendCreate path DefaultPresetPermissions true,
            Event.appendString path ("enable " ++ unit.name ++ "\n") false],
          some (Err.appendFailed path))
    else
      ([Event.mkdirForFile path true,
          Event.openAppendCreate path DefaultPresetPermissions false],
        some (Err.openFailed path))
  else
    ([Event.mkdirForFile path false], some (Err.mkdirFailed path))

/-- DestDir.MaskUnit (src/unnamed/part_000): ensure the parent directory of
the unit path, then symlink it to /dev/null. -/
def MaskUnit (env : Env) (root : String) (unit : SystemdUnit) : Outcome :=
  let path := joinRoot root (pathJoin SystemdUnitsPath unit.name)
  if env.mkdirOk path then
    if env.symlinkOk path then
      ([Event.mkdirForFile path true, Event.symlink "/dev/null" path true],
        none)
    else
      ([Event.mkdirForFile path true, Event.symlink "/dev/null" path false],
        some (Err.symlinkFailed path))
  else
    ([Event.mkdirForFile path false], some (Err.mkdirFailed path))

/-- Body of the systemd loop in storage.createUnits: write the unit, then
apply EnableUnit when Enable is set and MaskUnit when Mask is set. -/
def createUnit1 (env : Env) (root : String) (unit : SystemdUnit) : Outcome :=
  match writeSystemdUnit env root unit with
  | (evs, some e) => (evs, some e)
  | (evs, none) =>
    match (if unit.enable then EnableUnit env root unit else ([], none)) with
    | (evs2, some e) => (evs ++ evs2, some e)
    | (evs2, none) =>
      let (evs3, r) := if unit.mask then MaskUnit env root unit else ([], none)
      (evs ++ evs2 ++ evs3, r)

/-- storage.writeNetworkdUnit: write the unit file unless its contents are
empty. -/
def writeNetworkdUnit (env : Env) (root : String) (unit : NetworkdUnit) :
    Outcome :=
  if unit.contents = "" then ([], none)
  else
    let f := FileFromNetworkdUnit unit
    if env.writeRootOk root f then
      ([Event.writeRootFile root f true], none)
    else
      ([Event.writeRootFile root f false], some (Err.unitWriteFailed f.path))

/-- storage.createUnits: every systemd unit, then every networkd unit,
stopping at the first error. -/
def createUnits (env : Env) (root : String) (cfg : Config) : Outcome :=
  match runList (createUnit1 env root) cfg.systemdUnits with
  | (evs, some e) => (evs, some e)
  | (evs, none) =>
    let (rest, r) := runList (writeNetworkdUnit env root) cfg.networkdUnits
    (evs ++ rest, r)

/-- storage.Run (src/src/exec/storage.go): the four phases in order,
returning false at the first failing phase. -/
def storageRun (env : Env) (root : String) (cfg : Config) :
    List Event × Bool :=
  match createPartitions env cfg with
  | (evs1, some _) => (evs1, false)
  | (evs1, none) =>
    match createRaids env cfg with
    | (evs2, some _) => (evs1 ++ evs2, false)
    | (evs2, none) =>
      match createFilesystems env cfg with
      | (evs3, some _) => (evs1 ++ evs2 ++ evs3, false)
      | (evs3, none) =>
        match createUnits env root cfg with
        | (evs4, some _) => (evs1 ++ evs2 ++ evs3 ++ evs4, false)
        | (evs4, none) => (evs1 ++ evs2 ++ evs3 ++ evs4, true)

/-- stage.waitOnDevices of src/src/exec/stages/storage/storage.go. -/
def stageWaitOnDevices (env : Env) (devs : List String) (ctxt : String) :
    Outcome :=
  if env.waitOk devs ctxt then
    ([Event.wait devs ctxt true], none)
  else
    ([Event.wait devs ctxt false], some (Err.waitFailed ctxt))

/-- Body of the per-disk loop in stage.createPartitions of the stages
variant, identical in source text to the exec variant. -/
def stagePartitionDisk (env : Env) (disk : Disk) : Outcome :=
  let evs :=
    Event.sgdiskBegin disk.device ::
      ((if disk.wipeTable then [Event.sgdiskWipeTable disk.device] else []) ++
        disk.partitions.map (fun p =>
          Event.sgdiskCreatePartition disk.device (sgdiskPartitionOfPart p)))
  if env.commitOk disk.device then
    (evs ++ [Event.sgdiskCommit disk.device true], none)
  else
    (evs ++ [Event.sgdiskCommit disk.device false],
      some (Err.commitFailure disk.device))

/-- stage.createPartitions of the stages variant. -/
def stageCreatePartitions (env : Env) (cfg : Config) : Outcome :=
  if cfg.disks.isEmpty then ([], none)
  else
    match stageWaitOnDevices env (cfg.disks.map (fun d => d.device)) "disks"
    with
    | (evs, some e) => (evs, some e)
    | (evs, none) =>
      let (rest, r) := runList (stagePartitionDisk env) cfg.disks
      (evs ++ rest, r)

/-- The mdadm argument list built in stage.createRaids of the stages
variant, identical in source text to the exec variant. -/
def stageRaidArgs (md : Raid) : List String :=
  let args := ["--create", md.name, "--force", "--run", "--level", md.level,
    "--raid-devices", toString ((md.devices.length : Int) - md.spares)]
  let args :=
    if 0 < md.spares then args ++ ["--spare-devices", toString md.spares]
    else args
  args ++ md.devices

/-- Body of the per-array loop in stage.createRaids of the stages variant. -/
def stageCreateRaid1 (env : Env) (md : Raid) : Outcome :=
  let args := stageRaidArgs md
  if env.cmdOk "/sbin/mdadm" args then
    ([Event.cmd "/sbin/mdadm" args true], none)
  else
    ([Event.cmd "/sbin/mdadm" args false], some (Err.mdadmFailed md.name))

/-- stage.createRaids of the stages variant. -/
def stageCreateRaids (env : Env) (cfg : Config) : Outcome :=
  if cfg.arrays.isEmpty then ([], none)
  else
    match
      stageWaitOnDevices env ((cfg.arrays.map (fun a => a.devices)).flatten)
        "raids"
    with
    | (evs, some e) => (evs, some e)
    | (evs, none) =>
      let (rest, r) := runList (stageCreateRaid1 env) cfg.arrays
      (evs ++ rest, r)

/-- The per-file write loop of stage.createFiles of the stages variant (it
builds a util.Util with DestDir mnt where the exec variant builds a
util.DestDir, the same write primitive). -/
def stageWriteFsFiles (env : Env) (mnt : String) : List File → Outcome
  | [] => ([], none)
  | f :: rest =>
    if env.writeMntOk mnt f then
      let (evs, r) := stageWriteFsFiles env mnt rest
      (Event.writeMountedFile mnt f true :: evs, r)
    else
      ([Event.writeMountedFile mnt f false], some (Err.fileWriteFailed f.path))

/-- stage.createFiles of the stages variant. -/
def stageCreateFiles (env : Env) (fs : Filesystem) : Outcome :=
  if fs.files.isEmpty then ([], none)
  else
    match env.tempDir fs.device with
    | none => ([], some Err.tempDirFailed)
    | some mnt =>
      if env.mountOk fs.device mnt fs.format then
        let (evs, r) := stageWriteFsFiles env mnt fs.files
        (Event.tempDirCreate mnt ::
            Event.mount fs.device mnt fs.format true ::
            evs ++ [Event.unmount mnt (env.unmountOk mnt), Event.removeDir mnt],
          r)
      else
        ([Event.tempDirCreate mnt, Event.mount fs.device mnt fs.format false,
            Event.removeDir mnt],
          some (Err.mountFailed fs.device mnt))

/-- The call site of createFiles in stage.createFilesystems of the stages
variant, wrapping its error naming the device. -/
def stageCreateFilesWrapped (env : Env) (fs : Filesystem) : Outcome :=
  match stageCreateFiles env fs with
  | (evs, some e) => (evs, some (Err.createFilesFailed fs.device e))
  | (evs, none) => (evs, none)

/-- Body of the per-filesystem loop in stage.createFilesystems of the stages
variant. -/
def stageCreateFs1 (env : Env) (fs : Filesystem) : Outcome :=
  if fs.init then
    match
      (match fs.format with
        | "btrfs" => some ("/sbin/mkfs.btrfs", fs.options ++ ["--force"])
        | "ext4" => some ("/sbin/mkfs.ext4", fs.options ++ ["-F"])
        | _ => none)
    with
    | none => ([], some (Err.unsupportedFormat fs.format))
    | some (mkfs, args0) =>
      let args := args0 ++ [fs.device]
      if env.cmdOk mkfs args then
        let (evs, r) := stageCreateFilesWrapped env fs
        (Event.cmd mkfs args true :: evs, r)
      else
        ([Event.cmd mkfs args false], some (Err.mkfsFailed mkfs))
  else
    stageCreateFilesWrapped env fs

/-- stage.createFilesystems of the stages variant. -/
def stageCreateFilesystems (env : Env) (cfg : Config) : Outcome :=
  if cfg.filesystems.isEmpty then ([], none)
  else
    match
      stageWaitOnDevices env (cfg.filesystems.map (fun f => f.device))
        "filesystems"
    with
    | (evs, some e) => (evs, some e)
    | (evs, none) =>
      let (rest, r) := runList (stageCreateFs1 env) cfg.filesystems
      (evs ++ rest, r)

/-- stage.Run of src/src/exec/stages/storage/storage.go: three phases only,
with no unit phase. -/
def stageRun (env : Env) (cfg : Config) : List Event × Bool :=
  match stageCreatePartitions env cfg with
  | (evs1, some _) => (evs1, false)
  | (evs1, none) =>
    match stageCreateRaids env cfg with
    | (evs2, some _) => (evs1 ++ evs2, false)
    | (evs2, none) =>
      match stageCreateFilesystems env cfg with
      | (evs3, some _) => (evs1 ++ evs2 ++ evs3, false)
      | (evs3, none) => (evs1 ++ evs2 ++ evs3, true)

/-- Environment in which every external operation succeeds; temp directories
are named after the device they serve. -/
def envAll : Env :=
  { waitOk := fun _ _ => true
    commitOk := fun _ => true
    cmdOk := fun _ _ => true
    tempDir := fun d => some ("/tmp/ignition-files-" ++ d)
    mountOk := fun _ _ _ => true
    unmountOk := fun _ => true
    writeMntOk := fun _ _ => true
    writeRootOk := fun _ _ => true
    mkdirOk := fun _ => true
    openOk := fun _ => true
    appendOk := fun _ => true
    symlinkOk := fun _ => true }

/-- Configuration holding a single disk with no wipe request and no
partitions. -/
def cfgOneDisk : Config :=
  { disks := [{ device := "/dev/sda", wipeTable := false, partitions := [] }]
    arrays := []
    filesystems := []
    systemdUnits := []
    networkdUnits := [] }

/-- An ext4 filesystem carrying one file, as in the spec scenario. -/
def fsExt4 : Filesystem :=
  { device := "/dev/sda1"
    format := "ext4"
    options := []
    init := true
    files := [{ path := "/etc/hostname", contents := "node1", mode := 420,
                uid := 0, gid := 0 }] }

/-- A five-member array with one spare, as in the spec scenario. -/
def raidFive : Raid :=
  { name := "md0"
    level := "raid5"
    devices := ["/dev/sdb1", "/dev/sdc1", "/dev/sdd1", "/dev/sde1", "/dev/sdf1"]
    spares := 1 }

/-- A unit with empty contents, one empty and one populated drop-in, and both
activation flags set. -/
def unitSample : SystemdUnit :=
  { name := "example.service"
    contents := ""
    enable := true
    mask := true
    dropIns := [{ name := "10-a.conf", contents := "alpha" },
                { name := "20-b.conf", contents := "" }] }

/-- Every event in the trace of a runList execution comes from the step
applied to some element of the list. -/
theorem runList_mem_fst {α : Type} (step : α → Outcome) (l : List α)
    (e : Event) (he : e ∈ (runList step l).fst) :
    ∃ x ∈ l, e ∈ (step x).fst := by
  induction l with
  | nil => simp [runList] at he
  | cons x xs ih =>
    rcases h : step x with ⟨evs, r⟩
    cases r with
    | some err =>
      simp [runList, h] at he
      exact ⟨x, by simp, by simp [h, he]⟩
    | none =>
      simp [runList, h] at he
      rcases he with he | he
      · exact ⟨x, by simp, by simp [h, he]⟩
      · rcases ih he with ⟨y, hy, hey⟩
        exact ⟨y, by simp [hy], hey⟩

/-- C1: storage.Run executes the four phases in the fixed order partitions,
raids, filesystems, units; when a phase fails, Run reports failure and the
trace stops with that phase, so no later phase executes; and Run reports
success exactly when all four phases return no error. -/
theorem run_phase_order_and_short_circuit (env : Env) (root : String)
    (cfg : Config) :
    ((storageRun env root cfg).snd = true ↔
      ((createPartitions env cfg).snd = none ∧
        (createRaids env cfg).snd = none ∧
        (createFilesystems env cfg).snd = none ∧
        (createUnits env root cfg).snd = none)) ∧
    ((createPartitions env cfg).snd ≠ none →
      storageRun env root cfg = ((createPartitions env cfg).fst, false)) ∧
    ((createPartitions env cfg).snd = none →
      (createRaids env cfg).snd ≠ none →
      storageRun env root cfg =
        ((createPartitions env cfg).fst ++ (createRaids env cfg).fst,
          false)) ∧
    ((createPartitions env cfg).snd = none →
      (createRaids env cfg).snd = none →
      (createFilesystems env cfg).snd ≠ none →
      storageRun env root cfg =
        ((createPartitions env cfg).fst ++ (createRaids env cfg).fst ++
            (createFilesystems env cfg).fst,
          false)) ∧
    ((createPartitions env cfg).snd = none →
      (createRaids env cfg).snd = none →
      (createFilesystems env cfg).snd = none →
      storageRun env root cfg =
        ((createPartitions env cfg).fst ++ (createRaids env cfg).fst ++
            (createFilesystems env cfg).fst ++ (createUnits env root cfg).fst,
          ((createUnits env root cfg).snd).isNone)) := by
  rcases h1 : createPartitions env cfg with ⟨p1, r1⟩
  rcases h2 : createRaids env cfg with ⟨p2, r2⟩
  rcases h3 : createFilesystems env cfg with ⟨p3, r3⟩
  rcases h4 : createUnits env root cfg with ⟨p4, r4⟩
  cases r1 <;> cases r2 <;> cases r3 <;> cases r4 <;>
    simp [storageRun, h1, h2, h3, h4]

/-- Closed instance of the pipeline ordering theorem on the one-disk
configuration, in the all-success environment. -/
theorem run_phase_order_and_short_circuit_witness :
    storageRun envAll "/sysroot" cfgOneDisk =
      ([Event.wait ["/dev/sda"] "disks" true,
        Event.sgdiskBegin "/dev/sda",
        Event.sgdiskCommit "/dev/sda" true], true) := by
  have h :=
    (run_phase_order_and_short_circuit envAll "/sysroot" cfgOneDisk).2.2.2.2
      (by decide) (by decide) (by decide)
  exact h.trans (by decide)

/-- C3 counterexample: on a configuration whose sole disk has WipeTable false
and an empty partition list, the partition phase still invokes the
partition-table capability for that disk: both the begin/open of the device
and a commit appear in the trace, contrary to the claim that no capability is
invoked. -/
theorem noop_disk_still_opened_counterexample :
    (cfgOneDisk.disks =
      [{ device := "/dev/sda", wipeTable := false, partitions := [] }]) ∧
    Event.sgdiskBegin "/dev/sda" ∈ (createPartitions envAll cfgOneDisk).fst ∧
    Event.sgdiskCommit "/dev/sda" true ∈
      (createPartitions envAll cfgOneDisk).fst := by
  decide

/-- C3 amended: for a disk with WipeTable false and no partitions, the
partition phase issues no wipe and no partition creation for that disk, but
it still begins/opens the device and commits the empty operation; the disk
processing emits exactly the begin and commit events. -/
theorem noop_disk_no_wipe_no_create (env : Env) (disk : Disk)
    (hw : disk.wipeTable = false) (hp : disk.partitions = []) :
    partitionDisk env disk =
      ([Event.sgdiskBegin disk.device,
        Event.sgdiskCommit disk.device (env.commitOk disk.device)],
        if env.commitOk disk.device then none
        else some (Err.commitFailure disk.device)) := by
  cases h : env.commitOk disk.device <;> simp [partitionDisk, hw, hp, h]

/-- Closed instance of the amended no-op-disk theorem. -/
theorem noop_disk_no_wipe_no_create_witness :
    partitionDisk envAll
        { device := "/dev/sda", wipeTable := false, partitions := [] } =
      ([Event.sgdiskBegin "/dev/sda", Event.sgdiskCommit "/dev/sda" true],
        none) := by
  have h :=
    noop_disk_no_wipe_no_create envAll
      { device := "/dev/sda", wipeTable := false, partitions := [] }
      rfl rfl
  exact h.trans (by decide)

/-- C5: a filesystem entry with Initialize set and a format other than btrfs
and ext4 makes its processing fail with the unsupported-format error while
emitting no event at all, so no formatter command is invoked and no mount
occurs for that filesystem; on a configuration holding exactly that entry,
the phase fails with the same error right after the successful device wait. -/
theorem unsupported_format_rejected_before_mutation (env : Env)
    (fs : Filesystem) (cfg : Config) (hi : fs.init = true)
    (hb : fs.format ≠ "btrfs") (he : fs.format ≠ "ext4") :
    createFs1 env fs = ([], some (Err.unsupportedFormat fs.format)) ∧
    (cfg.filesystems = [fs] →
      env.waitOk [fs.device] "filesystems" = true →
      createFilesystems env cfg =
        ([Event.wait [fs.device] "filesystems" true],
          some (Err.unsupportedFormat fs.format))) := by
  have hfs : createFs1 env fs = ([], some (Err.unsupportedFormat fs.format)) := by
    unfold createFs1
    rw [hi]
    simp only [if_true]
  refine ⟨hfs, ?_⟩
  intro hcfg hwait
  unfold createFilesystems
  rw [hcfg]
  simp [waitOnDevices, hwait, runList, hfs]

/-- Closed instance of the unsupported-format theorem at format zfs. -/
theorem unsupported_format_rejected_before_mutation_witness :
    createFs1 envAll { fsExt4 with format := "zfs" } =
      ([], some (Err.unsupportedFormat "zfs")) := by
  have h :=
    (unsupported_format_rejected_before_mutation envAll
        { fsExt4 with format := "zfs" }
        { cfgOneDisk with filesystems := [{ fsExt4 with format := "zfs" }] }
        rfl (by decide) (by decide)).1
  exact h.trans (by decide)

/-- C6: the mdadm invocation for an array carries exactly the arguments
create name, force, run, level, raid-devices equal to member count minus
spare count, then spare-devices exactly when the spare count is positive,
then the member devices in configuration order; for five members and one
spare the invocation requests four raid devices and one spare device. -/
theorem raid_assembly_arguments (env : Env) (md : Raid) :
    (0 < md.spares →
      createRaid1 env md =
        ([Event.cmd "/sbin/mdadm"
            (["--create", md.name, "--force", "--run", "--level", md.level,
                "--raid-devices",
                toString ((md.devices.length : Int) - md.spares),
                "--spare-devices", toString md.spares] ++ md.devices)
            (env.cmdOk "/sbin/mdadm" (raidArgs md))],
          if env.cmdOk "/sbin/mdadm" (raidArgs md) then none
          else some (Err.mdadmFailed md.name))) ∧
    (md.spares ≤ 0 →
      createRaid1 env md =
        ([Event.cmd "/sbin/mdadm"
            (["--create", md.name, "--force", "--run", "--level", md.level,
                "--raid-devices",
                toString ((md.devices.length : Int) - md.spares)] ++
              md.devices)
            (env.cmdOk "/sbin/mdadm" (raidArgs md))],
          if env.cmdOk "/sbin/mdadm" (raidArgs md) then none
          else some (Err.mdadmFailed md.name))) ∧
    raidArgs raidFive =
      ["--create", "md0", "--force", "--run", "--level", "raid5",
        "--raid-devices", "4", "--spare-devices", "1",
        "/dev/sdb1", "/dev/sdc1", "/dev/sdd1", "/dev/sde1", "/dev/sdf1"] := by
  refine ⟨?_, ?_, by decide⟩
  · intro hs
    have hargs : raidArgs md =
        ["--create", md.name, "--force", "--run", "--level", md.level,
            "--raid-devices", toString ((md.devices.length : Int) - md.spares),
            "--spare-devices", toString md.spares] ++ md.devices := by
      simp [raidArgs, hs]
    rw [← hargs]
    cases h : env.cmdOk "/sbin/mdadm" (raidArgs md) <;>
      simp [createRaid1, h]
  · intro hs
    have hs2 : ¬ 0 < md.spares := by omega
    have hargs : raidArgs md =
        ["--create", md.name, "--force", "--run", "--level", md.level,
            "--raid-devices",
            toString ((md.devices.length : Int) - md.spares)] ++
          md.devices := by
      simp [raidArgs, hs2]
    rw [← hargs]
    cases h : env.cmdOk "/sbin/mdadm" (raidArgs md) <;>
      simp [createRaid1, h]

/-- Closed instance of the mdadm argument theorem on the five-member,
one-spare array. -/
theorem raid_assembly_arguments_witness :
    createRaid1 envAll raidFive =
      ([Event.cmd "/sbin/mdadm"
          ["--create", "md0", "--force", "--run", "--level", "raid5",
            "--raid-devices", "4", "--spare-devices", "1",
            "/dev/sdb1", "/dev/sdc1", "/dev/sdd1", "/dev/sde1", "/dev/sdf1"]
          true], none) := by
  have h := (raid_assembly_arguments envAll raidFive).1 (by decide)
  exact h.trans (by decide)

/-- C8: with Initialize set and a supported format, the formatter invocation
carries the configured options, then the force flag of that formatter, then
the device path; with format ext4 and no options the invocation is exactly
mkfs.ext4 -F device. -/
theorem mkfs_invocation_arguments (env : Env) (fs : Filesystem)
    (hi : fs.init = true) :
    (fs.format = "ext4" →
      ∃ rest r, createFs1 env fs =
        (Event.cmd "/sbin/mkfs.ext4" (fs.options ++ ["-F", fs.device])
            (env.cmdOk "/sbin/mkfs.ext4" (fs.options ++ ["-F", fs.device])) ::
            rest, r)) ∧
    (fs.format = "btrfs" →
      ∃ rest r, createFs1 env fs =
        (Event.cmd "/sbin/mkfs.btrfs" (fs.options ++ ["--force", fs.device])
            (env.cmdOk "/sbin/mkfs.btrfs"
              (fs.options ++ ["--force", fs.device])) ::
            rest, r)) ∧
    (fs.format = "ext4" → fs.options = [] → fs.files = [] →
      env.cmdOk "/sbin/mkfs.ext4" ["-F", fs.device] = true →
      createFs1 env fs =
        ([Event.cmd "/sbin/mkfs.ext4" ["-F", fs.device] true], none)) := by
  refine ⟨?_, ?_, ?_⟩
  · intro hfmt
    cases h : env.cmdOk "/sbin/mkfs.ext4" (fs.options ++ ["-F", fs.device]) with
    | true =>
      refine ⟨(createFilesWrapped env fs).fst, (createFilesWrapped env fs).snd,
        ?_⟩
      simp [createFs1, hi, hfmt, h]
    | false =>
      refine ⟨[], some (Err.mkfsFailed "/sbin/mkfs.ext4"), ?_⟩
      simp [createFs1, hi, hfmt, h]
  · intro hfmt
    cases h : env.cmdOk "/sbin/mkfs.btrfs"
        (fs.options ++ ["--force", fs.device]) with
    | true =>
      refine ⟨(createFilesWrapped env fs).fst, (createFilesWrapped env fs).snd,
        ?_⟩
      simp [createFs1, hi, hfmt, h]
    | false =>
      refine ⟨[], some (Err.mkfsFailed "/sbin/mkfs.btrfs"), ?_⟩
      simp [createFs1, hi, hfmt, h]
  · intro hfmt hopt hfiles hok
    simp [createFs1, hi, hfmt, hopt, hok, createFilesWrapped, createFiles,
      hfiles]

/-- Closed instance of the formatter argument theorem: mkfs.ext4 -F on the
scenario filesystem. -/
theorem mkfs_invocation_arguments_witness :
    createFs1 envAll { fsExt4 with files := [] } =
      ([Event.cmd "/sbin/mkfs.ext4" ["-F", "/dev/sda1"] true], none) := by
  have h :=
    (mkfs_invocation_arguments envAll { fsExt4 with files := [] } rfl).2.2
      rfl rfl rfl rfl
  exact h.trans (by decide)

/-- The file-write loop never reads the unmount oracle, so changing it leaves
the outcome of the loop unchanged. -/
theorem writeFsFiles_unmount_irrelevant (env : Env) (u : String → Bool)
    (mnt : String) (l : List File) :
    writeFsFiles { env with unmountOk := u } mnt l = writeFsFiles env mnt l := by
  induction l with
  | nil => rfl
  | cons f rest ih => simp [writeFsFiles, ih]

/-- When every file write succeeds, the file-write loop writes each file in
configuration order and succeeds. -/
theorem writeFsFiles_all_ok (env : Env) (mnt : String) (l : List File)
    (h : ∀ f, env.writeMntOk mnt f = true) :
    writeFsFiles env mnt l =
      (l.map (fun f => Event.writeMountedFile mnt f true), none) := by
  induction l with
  | nil => rfl
  | cons f rest ih => simp [writeFsFiles, h f, ih]

/-- C2: once file population has mounted the device at the temporary
directory, the unmount is attempted on every exit path and with any outcome
of the unmount oracle the value returned by createFiles is exactly the
outcome of the file-write loop, so an unmount failure never replaces a
preceding file-write error; the temporary directory is removed afterward,
also on the mount-failure path. -/
theorem createFiles_unmount_attempted_on_every_exit (env : Env)
    (fs : Filesystem) (mnt : String) (hf : fs.files ≠ [])
    (ht : env.tempDir fs.device = some mnt)
    (hm : env.mountOk fs.device mnt fs.format = true) :
    (∀ u : String → Bool,
      createFiles { env with unmountOk := u } fs =
        (Event.tempDirCreate mnt ::
            Event.mount fs.device mnt fs.format true ::
            (writeFsFiles env mnt fs.files).fst ++
              [Event.unmount mnt (u mnt), Event.removeDir mnt],
          (writeFsFiles env mnt fs.files).snd)) ∧
    (∀ u : String → Bool,
      (createFiles { env with unmountOk := u } fs).snd =
        (writeFsFiles env mnt fs.files).snd) ∧
    (∀ env2 : Env, env2.tempDir fs.device = some mnt →
      env2.mountOk fs.device mnt fs.format = false →
      createFiles env2 fs =
        ([Event.tempDirCreate mnt, Event.mount fs.device mnt fs.format false,
            Event.removeDir mnt],
          some (Err.mountFailed fs.device mnt))) := by
  have hne : fs.files.isEmpty = false := by
    cases hl : fs.files with
    | nil => exact absurd hl hf
    | cons a as => rfl
  have hA : ∀ u : String → Bool,
      createFiles { env with unmountOk := u } fs =
        (Event.tempDirCreate mnt ::
            Event.mount fs.device mnt fs.format true ::
            (writeFsFiles env mnt fs.files).fst ++
              [Event.unmount mnt (u mnt), Event.removeDir mnt],
          (writeFsFiles env mnt fs.files).snd) := by
    intro u
    rcases hw : writeFsFiles env mnt fs.files with ⟨wevs, wr⟩
    have hw2 : writeFsFiles { env with unmountOk := u } mnt fs.files =
        (wevs, wr) := by
      rw [writeFsFiles_unmount_irrelevant, hw]
    simp [createFiles, hne, ht, hm, hw2, hw]
  refine ⟨hA, fun u => by rw [hA u], ?_⟩
  intro env2 ht2 hm2
  simp [createFiles, hne, ht2, hm2]

/-- Closed instance of the scoped-mount theorem: a failing file write and a
failing unmount together still yield the file-write error, with the unmount
attempted and the temporary directory removed. -/
theorem createFiles_unmount_attempted_on_every_exit_witness :
    createFiles
        { envAll with
            writeMntOk := fun _ _ => false
            unmountOk := fun _ => false } fsExt4 =
      ([Event.tempDirCreate "/tmp/ignition-files-/dev/sda1",
        Event.mount "/dev/sda1" "/tmp/ignition-files-/dev/sda1" "ext4" true,
        Event.writeMountedFile "/tmp/ignition-files-/dev/sda1"
          { path := "/etc/hostname", contents := "node1", mode := 420,
            uid := 0, gid := 0 } false,
        Event.unmount "/tmp/ignition-files-/dev/sda1" false,
        Event.removeDir "/tmp/ignition-files-/dev/sda1"],
        some (Err.fileWriteFailed "/etc/hostname")) := by
  have h :=
    (createFiles_unmount_attempted_on_every_exit
        { envAll with writeMntOk := fun _ _ => false } fsExt4
        "/tmp/ignition-files-/dev/sda1" (by decide) (by decide) (by decide)).1
      (fun _ => false)
  exact h.trans (by decide)

/-- C4: each phase computes its own device set and calls the device waiter
before any mutation: with entities present, the first trace event is the wait
on exactly the computed set, and when that wait fails the phase returns the
wait error with the wait as its only event, so no partitioning, command,
mount or file write has happened in that phase. -/
theorem phases_wait_before_any_mutation (env : Env) (cfg : Config) :
    (cfg.disks ≠ [] →
      (∃ rest, (createPartitions env cfg).fst =
          Event.wait (cfg.disks.map (fun d => d.device)) "disks"
            (env.waitOk (cfg.disks.map (fun d => d.device)) "disks") ::
            rest) ∧
      (env.waitOk (cfg.disks.map (fun d => d.device)) "disks" = false →
        createPartitions env cfg =
          ([Event.wait (cfg.disks.map (fun d => d.device)) "disks" false],
            some (Err.waitFailed "disks")))) ∧
    (cfg.arrays ≠ [] →
      (∃ rest, (createRaids env cfg).fst =
          Event.wait ((cfg.arrays.map (fun a => a.devices)).flatten) "raids"
            (env.waitOk ((cfg.arrays.map (fun a => a.devices)).flatten)
              "raids") :: rest) ∧
      (env.waitOk ((cfg.arrays.map (fun a => a.devices)).flatten) "raids" =
          false →
        createRaids env cfg =
          ([Event.wait ((cfg.arrays.map (fun a => a.devices)).flatten)
              "raids" false],
            some (Err.waitFailed "raids")))) ∧
    (cfg.filesystems ≠ [] →
      (∃ rest, (createFilesystems env cfg).fst =
          Event.wait (cfg.filesystems.map (fun f => f.device)) "filesystems"
            (env.waitOk (cfg.filesystems.map (fun f => f.device))
              "filesystems") :: rest) ∧
      (env.waitOk (cfg.filesystems.map (fun f => f.device)) "filesystems" =
          false →
        createFilesystems env cfg =
          ([Event.wait (cfg.filesystems.map (fun f => f.device))
              "filesystems" false],
            some (Err.waitFailed "filesystems")))) := by
  refine ⟨?_, ?_, ?_⟩
  · intro hne
    have hE : cfg.disks.isEmpty = false := by
      cases hl : cfg.disks with
      | nil => exact absurd hl hne
      | cons a as => rfl
    constructor
    · cases hw : env.waitOk (cfg.disks.map (fun d => d.device)) "disks" with
      | false =>
        exact ⟨[], by simp [createPartitions, hE, waitOnDevices, hw]⟩
      | true =>
        refine ⟨(runList (partitionDisk env) cfg.disks).fst, ?_⟩
        rcases hr : runList (partitionDisk env) cfg.disks with ⟨revs, rr⟩
        simp [createPartitions, hE, waitOnDevices, hw, hr]
    · intro hw
      simp [createPartitions, hE, waitOnDevices, hw]
  · intro hne
    have hE : cfg.arrays.isEmpty = false := by
      cases hl : cfg.arrays with
      | nil => exact absurd hl hne
      | cons a as => rfl
    constructor
    · cases hw : env.waitOk ((cfg.arrays.map (fun a => a.devices)).flatten)
          "raids" with
      | false =>
        exact ⟨[], by simp [createRaids, hE, waitOnDevices, hw]⟩
      | true =>
        refine ⟨(runList (createRaid1 env) cfg.arrays).fst, ?_⟩
        rcases hr : runList (createRaid1 env) cfg.arrays with ⟨revs, rr⟩
        simp [createRaids, hE, waitOnDevices, hw, hr]
    · intro hw
      simp [createRaids, hE, waitOnDevices, hw]
  · intro hne
    have hE : cfg.filesystems.isEmpty = false := by
      cases hl : cfg.filesystems with
      | nil => exact absurd hl hne
      | cons a as => rfl
    constructor
    · cases hw : env.waitOk (cfg.filesystems.map (fun f => f.device))
          "filesystems" with
      | false =>
        exact ⟨[], by simp [createFilesystems, hE, waitOnDevices, hw]⟩
      | true =>
        refine ⟨(runList (createFs1 env) cfg.filesystems).fst, ?_⟩
        rcases hr : runList (createFs1 env) cfg.filesystems with ⟨revs, rr⟩
        simp [createFilesystems, hE, waitOnDevices, hw, hr]
    · intro hw
      simp [createFilesystems, hE, waitOnDevices, hw]

/-- Closed instance of the wait-before-mutation theorem: a failed device wait
leaves the partition phase with nothing but the wait in its trace. -/
theorem phases_wait_before_any_mutation_witness :
    createPartitions { envAll with waitOk := fun _ _ => false } cfgOneDisk =
      ([Event.wait ["/dev/sda"] "disks" false],
        some (Err.waitFailed "disks")) := by
  have h :=
    ((phases_wait_before_any_mutation
        { envAll with waitOk := fun _ _ => false } cfgOneDisk).1
      (by decide)).2 (by decide)
  exact h.trans (by decide)

/-- The file-write loop emits no command invocation. -/
theorem writeFsFiles_no_cmd (env : Env) (mnt : String) (l : List File)
    (exe : String) (args : List String) (ok : Bool) :
    Event.cmd exe args ok ∉ (writeFsFiles env mnt l).fst := by
  induction l with
  | nil => simp [writeFsFiles]
  | cons f rest ih =>
    cases h : env.writeMntOk mnt f with
    | false => simp [writeFsFiles, h]
    | true =>
      rcases hw : writeFsFiles env mnt rest with ⟨evs, r⟩
      rw [hw] at ih
      simp [writeFsFiles, h, hw]
      exact ih

/-- File population emits no command invocation. -/
theorem createFiles_no_cmd (env : Env) (fs : Filesystem) (exe : String)
    (args : List String) (ok : Bool) :
    Event.cmd exe args ok ∉ (createFiles env fs).fst := by
  unfold createFiles
  cases hE : fs.files.isEmpty with
  | true => simp [hE]
  | false =>
    cases ht : env.tempDir fs.device with
    | none => simp [hE, ht]
    | some mnt =>
      cases hm : env.mountOk fs.device mnt fs.format with
      | false => simp [hE, ht, hm]
      | true =>
        rcases hw : writeFsFiles env mnt fs.files with ⟨evs, r⟩
        have hmem := writeFsFiles_no_cmd env mnt fs.files exe args ok
        rw [hw] at hmem
        simp [hE, ht, hm, hw]
        exact hmem

/-- C9: a filesystem entry with Initialize unset invokes no formatter command
at all, its file population is the very createFiles protocol and does not
depend on the Initialize flag, and when the file list is non-empty and the
temporary directory and mount succeed the scoped-mount trace is produced,
with the files written in configuration order when every write succeeds. -/
theorem no_init_skips_formatter_keeps_files (env : Env) (fs : Filesystem)
    (hi : fs.init = false) :
    createFs1 env fs = createFilesWrapped env fs ∧
    (∀ exe args ok, Event.cmd exe args ok ∉ (createFs1 env fs).fst) ∧
    createFiles env fs = createFiles env { fs with init := true } ∧
    (∀ mnt, fs.files ≠ [] → env.tempDir fs.device = some mnt →
      env.mountOk fs.device mnt fs.format = true →
      (createFs1 env fs).fst =
        Event.tempDirCreate mnt ::
          Event.mount fs.device mnt fs.format true ::
          (writeFsFiles env mnt fs.files).fst ++
            [Event.unmount mnt (env.unmountOk mnt), Event.removeDir mnt]) ∧
    (∀ mnt, (∀ f, env.writeMntOk mnt f = true) →
      (writeFsFiles env mnt fs.files).fst =
        fs.files.map (fun f => Event.writeMountedFile mnt f true)) := by
  have h1 : createFs1 env fs = createFilesWrapped env fs := by
    simp [createFs1, hi]
  have hfstW : (createFilesWrapped env fs).fst = (createFiles env fs).fst := by
    rcases hc : createFiles env fs with ⟨evs, r⟩
    cases r <;> simp [createFilesWrapped, hc]
  refine ⟨h1, ?_, ?_, ?_, ?_⟩
  · intro exe args ok
    rw [h1, hfstW]
    exact createFiles_no_cmd env fs exe args ok
  · rfl
  · intro mnt hf ht hm
    have hne : fs.files.isEmpty = false := by
      cases hl : fs.files with
      | nil => exact absurd hl hf
      | cons a as => rfl
    rw [h1, hfstW]
    rcases hw : writeFsFiles env mnt fs.files with ⟨wevs, wr⟩
    simp [createFiles, hne, ht, hm, hw]
  · intro mnt hok
    rw [writeFsFiles_all_ok env mnt fs.files hok]

/-- Closed instance of the no-Initialize theorem: the scoped-mount trace of
the scenario filesystem with Initialize unset, with no formatter command. -/
theorem no_init_skips_formatter_keeps_files_witness :
    (createFs1 envAll { fsExt4 with init := false }).fst =
      [Event.tempDirCreate "/tmp/ignition-files-/dev/sda1",
        Event.mount "/dev/sda1" "/tmp/ignition-files-/dev/sda1" "ext4" true,
        Event.writeMountedFile "/tmp/ignition-files-/dev/sda1"
          { path := "/etc/hostname", contents := "node1", mode := 420,
            uid := 0, gid := 0 } true,
        Event.unmount "/tmp/ignition-files-/dev/sda1" true,
        Event.removeDir "/tmp/ignition-files-/dev/sda1"] := by
  have h :=
    (no_init_skips_formatter_keeps_files envAll { fsExt4 with init := false }
        rfl).2.2.2.1 "/tmp/ignition-files-/dev/sda1"
      (by decide) (by decide) (by decide)
  exact h.trans (by decide)

/-- When every root write succeeds, the drop-in loop writes exactly the
drop-ins with non-empty contents, in order, and succeeds. -/
theorem writeDropins_all_ok (env : Env) (root : String) (unit : SystemdUnit)
    (hw : ∀ f, env.writeRootOk root f = true) (ds : List SystemdUnitDropIn) :
    writeDropins env root unit ds =
      ((ds.filter (fun d => d.contents != "")).map
          (fun d => Event.writeRootFile root (FileFromUnitDropin unit d) true),
        none) := by
  induction ds with
  | nil => rfl
  | cons d rest ih =>
    by_cases hc : d.contents = ""
    · simp [writeDropins, hc, ih, List.filter_cons]
    · simp [writeDropins, hc, hw, ih, List.filter_cons]

/-- C7: in an environment where the root writes, directory creation, preset
open and append, and symlink creation succeed, processing one systemd unit
writes exactly the drop-ins with non-empty contents, writes the unit file
itself exactly when the unit contents are non-empty, then, when the enable
flag is set, opens the activation preset file for append-or-create with the
fixed permission mode and appends the enable directive line for the unit
name, and, when the mask flag is set, creates a symbolic link from the unit
path to /dev/null; enable and mask act even when the contents are empty. -/
theorem unit_writer_dropins_unit_enable_mask (env : Env) (root : String)
    (unit : SystemdUnit) (hw : ∀ f, env.writeRootOk root f = true)
    (hmk : ∀ p, env.mkdirOk p = true) (hop : ∀ p, env.openOk p = true)
    (hap : ∀ p, env.appendOk p = true) (hsy : ∀ p, env.symlinkOk p = true) :
    createUnit1 env root unit =
      (((unit.dropIns.filter (fun d => d.contents != "")).map
            (fun d =>
              Event.writeRootFile root (FileFromUnitDropin unit d) true)) ++
          (if unit.contents = "" then []
            else [Event.writeRootFile root (FileFromSystemdUnit unit) true]) ++
          (if unit.enable then
              [Event.mkdirForFile (joinRoot root presetPath) true,
                Event.openAppendCreate (joinRoot root presetPath)
                  DefaultPresetPermissions true,
                Event.appendString (joinRoot root presetPath)
                  ("enable " ++ unit.name ++ "\n") true]
            else []) ++
          (if unit.mask then
              [Event.mkdirForFile
                  (joinRoot root (pathJoin SystemdUnitsPath unit.name)) true,
                Event.symlink "/dev/null"
                  (joinRoot root (pathJoin SystemdUnitsPath unit.name)) true]
            else []),
        none) := by
  have hu : writeSystemdUnit env root unit =
      (((unit.dropIns.filter (fun d => d.contents != "")).map
            (fun d =>
              Event.writeRootFile root (FileFromUnitDropin unit d) true)) ++
          (if unit.contents = "" then []
            else [Event.writeRootFile root (FileFromSystemdUnit unit) true]),
        none) := by
    unfold writeSystemdUnit
    rw [writeDropins_all_ok env root unit hw unit.dropIns]
    by_cases hc : unit.contents = ""
    · simp [hc]
    · simp [hc, hw]
  have hen : EnableUnit env root unit =
      ([Event.mkdirForFile (joinRoot root presetPath) true,
          Event.openAppendCreate (joinRoot root presetPath)
            DefaultPresetPermissions true,
          Event.appendString (joinRoot root presetPath)
            ("enable " ++ unit.name ++ "\n") true],
        none) := by
    simp [EnableUnit, hmk, hop, hap]
  have hma : MaskUnit env root unit =
      ([Event.mkdirForFile
            (joinRoot root (pathJoin SystemdUnitsPath unit.name)) true,
          Event.symlink "/dev/null"
            (joinRoot root (pathJoin SystemdUnitsPath unit.name)) true],
        none) := by
    simp [MaskUnit, hmk, hsy]
  unfold createUnit1
  rw [hu]
  by_cases he : unit.enable <;> by_cases hm : unit.mask <;>
    simp [he, hm, hen, hma]

/-- Closed instance of the unit-writer theorem on a unit with empty contents,
one populated and one empty drop-in, and both activation flags set. -/
theorem unit_writer_dropins_unit_enable_mask_witness :
    createUnit1 envAll "/sysroot" unitSample =
      ([Event.writeRootFile "/sysroot"
          { path := "/etc/systemd/system/example.service.d/10-a.conf",
            contents := "alpha", mode := 420, uid := 0, gid := 0 } true,
        Event.mkdirForFile
          "/sysroot/etc/systemd/system-preset/20-ignition.preset" true,
        Event.openAppendCreate
          "/sysroot/etc/systemd/system-preset/20-ignition.preset" 420 true,
        Event.appendString
          "/sysroot/etc/systemd/system-preset/20-ignition.preset"
          "enable example.service\n" true,
        Event.mkdirForFile "/sysroot/etc/systemd/system/example.service" true,
        Event.symlink "/dev/null"
          "/sysroot/etc/systemd/system/example.service" true],
        none) := by
  have h :=
    unit_writer_dropins_unit_enable_mask envAll "/sysroot" unitSample
      (fun f => rfl) (fun p => rfl) (fun p => rfl) (fun p => rfl)
      (fun p => rfl)
  exact h.trans (by decide)

/-- Events that only the unit phase can emit: unit and drop-in and networkd
file writes below the root, preset-file operations, and mask symlinks. -/
def isUnitEvent : Event → Bool
  | Event.writeRootFile _ _ _ => true
  | Event.mkdirForFile _ _ => true
  | Event.openAppendCreate _ _ _ => true
  | Event.appendString _ _ _ => true
  | Event.symlink _ _ _ => true
  | _ => false

/-- The device wait emits no unit-phase event. -/
theorem stageWaitOnDevices_no_unit (env : Env) (devs : List String)
    (ctxt : String) :
    ∀ e ∈ (stageWaitOnDevices env devs ctxt).fst, isUnitEvent e = false := by
  intro e he
  cases h : env.waitOk devs ctxt <;> simp [stageWaitOnDevices, h] at he <;>
    subst he <;> rfl

/-- Partitioning one disk emits no unit-phase event. -/
theorem stagePartitionDisk_no_unit (env : Env) (d : Disk) :
    ∀ e ∈ (stagePartitionDisk env d).fst, isUnitEvent e = false := by
  intro e he
  cases h : env.commitOk d.device <;> cases hwt : d.wipeTable <;>
    simp [stagePartitionDisk, h, hwt] at he
  all_goals
    first
    | (rcases he with rfl | ⟨p, hp, rfl⟩ | rfl <;> rfl)
    | (rcases he with rfl | rfl | ⟨p, hp, rfl⟩ | rfl <;> rfl)

/-- Assembling one array emits no unit-phase event. -/
theorem stageCreateRaid1_no_unit (env : Env) (md : Raid) :
    ∀ e ∈ (stageCreateRaid1 env md).fst, isUnitEvent e = false := by
  intro e he
  cases h : env.cmdOk "/sbin/mdadm" (stageRaidArgs md) <;>
    simp [stageCreateRaid1, h] at he <;> subst he <;> rfl

/-- The per-file write loop of the stage variant emits no unit-phase
event. -/
theorem stageWriteFsFiles_no_unit (env : Env) (mnt : String) (l : List File) :
    ∀ e ∈ (stageWriteFsFiles env mnt l).fst, isUnitEvent e = false := by
  induction l with
  | nil => simp [stageWriteFsFiles]
  | cons f rest ih =>
    intro e he
    cases h : env.writeMntOk mnt f with
    | false =>
      simp [stageWriteFsFiles, h] at he
      subst he; rfl
    | true =>
      rcases hw : stageWriteFsFiles env mnt rest with ⟨evs, r⟩
      rw [hw] at ih
      simp [stageWriteFsFiles, h, hw] at he
      rcases he with rfl | he
      · rfl
      · exact ih e he

/-- File population in the stage variant emits no unit-phase event. -/
theorem stageCreateFiles_no_unit (env : Env) (fs : Filesystem) :
    ∀ e ∈ (stageCreateFiles env fs).fst, isUnitEvent e = false := by
  intro e he
  unfold stageCreateFiles at he
  cases hE : fs.files.isEmpty with
  | true => simp [hE] at he
  | false =>
    cases ht : env.tempDir fs.device with
    | none => simp [hE, ht] at he
    | some mnt =>
      cases hm : env.mountOk fs.device mnt fs.format with
      | false =>
        simp [hE, ht, hm] at he
        rcases he with rfl | rfl | rfl <;> rfl
      | true =>
        rcases hw : stageWriteFsFiles env mnt fs.files with ⟨evs, r⟩
        have hall := stageWriteFsFiles_no_unit env mnt fs.files
        rw [hw] at hall
        simp [hE, ht, hm, hw] at he
        rcases he with rfl | rfl | he | rfl | rfl
        · rfl
        · rfl
        · exact hall e he
        · rfl
        · rfl

/-- One filesystem entry of the stage variant emits no unit-phase event. -/
theorem stageCreateFs1_no_unit (env : Env) (fs : Filesystem) :
    ∀ e ∈ (stageCreateFs1 env fs).fst, isUnitEvent e = false := by
  intro e he
  have hwr : (stageCreateFilesWrapped env fs).fst =
      (stageCreateFiles env fs).fst := by
    rcases hc : stageCreateFiles env fs with ⟨evs, r⟩
    cases r <;> simp [stageCreateFilesWrapped, hc]
  cases hi : fs.init with
  | false =>
    simp [stageCreateFs1, hi, hwr] at he
    exact stageCreateFiles_no_unit env fs e he
  | true =>
    unfold stageCreateFs1 at he
    rw [hi] at he
    simp only [if_true] at he
    rcases hsel : (match fs.format with
        | "btrfs" => some ("/sbin/mkfs.btrfs", fs.options ++ ["--force"])
        | "ext4" => some ("/sbin/mkfs.ext4", fs.options ++ ["-F"])
        | _ => (none : Option (String × List String))) with _ | ⟨mkfs, args0⟩
    · rw [hsel] at he
      simp at he
    · rw [hsel] at he
      cases hok : env.cmdOk mkfs (args0 ++ [fs.device]) with
      | false =>
        simp [hok] at he
        subst he; rfl
      | true =>
        rcases hw : stageCreateFilesWrapped env fs with ⟨evs, r⟩
        simp [hok, hw] at he
        rcases he with rfl | he
        · rfl
        · have hall := stageCreateFiles_no_unit env fs
          rw [← hwr, hw] at hall
          exact hall e he

/-- The partition phase of the stage variant emits no unit-phase event. -/
theorem stageCreatePartitions_no_unit (env : Env) (cfg : Config) :
    ∀ e ∈ (stageCreatePartitions env cfg).fst, isUnitEvent e = false := by
  intro e he
  unfold stageCreatePartitions at he
  cases hE : cfg.disks.isEmpty with
  | true => simp [hE] at he
  | false =>
    rcases hwo : stageWaitOnDevices env (cfg.disks.map (fun d => d.device))
        "disks" with ⟨wevs, wr⟩
    have hwall := stageWaitOnDevices_no_unit env
      (cfg.disks.map (fun d => d.device)) "disks"
    rw [hwo] at hwall
    cases wr with
    | some err =>
      simp [hE, hwo] at he
      exact hwall e he
    | none =>
      rcases hr : runList (stagePartitionDisk env) cfg.disks with ⟨revs, rr⟩
      simp [hE, hwo, hr] at he
      rcases he with he | he
      · exact hwall e he
      · rcases runList_mem_fst (stagePartitionDisk env) cfg.disks e
            (by rw [hr]; exact he) with ⟨x, hx, hex⟩
        exact stagePartitionDisk_no_unit env x e hex

/-- The raid phase of the stage variant emits no unit-phase event. -/
theorem stageCreateRaids_no_unit (env : Env) (cfg : Config) :
    ∀ e ∈ (stageCreateRaids env cfg).fst, isUnitEvent e = false := by
  intro e he
  unfold stageCreateRaids at he
  cases hE : cfg.arrays.isEmpty with
  | true => simp [hE] at he
  | false =>
    rcases hwo : stageWaitOnDevices env
        ((cfg.arrays.map (fun a => a.devices)).flatten) "raids"
      with ⟨wevs, wr⟩
    have hwall := stageWaitOnDevices_no_unit env
      ((cfg.arrays.map (fun a => a.devices)).flatten) "raids"
    rw [hwo] at hwall
    cases wr with
    | some err =>
      simp [hE, hwo] at he
      exact hwall e he
    | none =>
      rcases hr : runList (stageCreateRaid1 env) cfg.arrays with ⟨revs, rr⟩
      simp [hE, hwo, hr] at he
      rcases he with he | he
      · exact hwall e he
      · rcases runList_mem_fst (stageCreateRaid1 env) cfg.arrays e
            (by rw [hr]; exact he) with ⟨x, hx, hex⟩
        exact stageCreateRaid1_no_unit env x e hex

/-- The filesystem phase of the stage variant emits no unit-phase event. -/
theorem stageCreateFilesystems_no_unit (env : Env) (cfg : Config) :
    ∀ e ∈ (stageCreateFilesystems env cfg).fst, isUnitEvent e = false := by
  intro e he
  unfold stageCreateFilesystems at he
  cases hE : cfg.filesystems.isEmpty with
  | true => simp [hE] at he
  | false =>
    rcases hwo : stageWaitOnDevices env
        (cfg.filesystems.map (fun f => f.device)) "filesystems"
      with ⟨wevs, wr⟩
    have hwall := stageWaitOnDevices_no_unit env
      (cfg.filesystems.map (fun f => f.device)) "filesystems"
    rw [hwo] at hwall
    cases wr with
    | some err =>
      simp [hE, hwo] at he
      exact hwall e he
    | none =>
      rcases hr : runList (stageCreateFs1 env) cfg.filesystems with ⟨revs, rr⟩
      simp [hE, hwo, hr] at he
      rcases he with he | he
      · exact hwall e he
      · rcases runList_mem_fst (stageCreateFs1 env) cfg.filesystems e
            (by rw [hr]; exact he) with ⟨x, hx, hex⟩
        exact stageCreateFs1_no_unit env x e hex

/-- The whole stage-variant run emits no unit-phase event. -/
theorem stageRun_no_unit (env : Env) (cfg : Config) :
    ∀ e ∈ (stageRun env cfg).fst, isUnitEvent e = false := by
  intro e he
  unfold stageRun at he
  rcases h1 : stageCreatePartitions env cfg with ⟨p1, r1⟩
  rcases h2 : stageCreateRaids env cfg with ⟨p2, r2⟩
  rcases h3 : stageCreateFilesystems env cfg with ⟨p3, r3⟩
  have a1 := stageCreatePartitions_no_unit env cfg
  have a2 := stageCreateRaids_no_unit env cfg
  have a3 := stageCreateFilesystems_no_unit env cfg
  rw [h1] at a1
  rw [h2] at a2
  rw [h3] at a3
  cases r1 with
  | some e1 =>
    rw [h1] at he
    exact a1 e he
  | none =>
    cases r2 with
    | some e2 =>
      rw [h1, h2] at he
      simp at he
      rcases he with he | he
      · exact a1 e he
      · exact a2 e he
    | none =>
      cases r3 with
      | some e3 =>
        rw [h1, h2, h3] at he
        simp at he
        rcases he with he | he | he
        · exact a1 e he
        · exact a2 e he
        · exact a3 e he
      | none =>
        rw [h1, h2, h3] at he
        simp at he
        rcases he with he | he | he
        · exact a1 e he
        · exact a2 e he
        · exact a3 e he

/-- The two per-file write loops agree on every input. -/
theorem stageWriteFsFiles_eq (env : Env) (mnt : String) (l : List File) :
    stageWriteFsFiles env mnt l = writeFsFiles env mnt l := by
  induction l with
  | nil => rfl
  | cons f rest ih => simp [stageWriteFsFiles, writeFsFiles, ih]

/-- The two file-population functions agree on every input. -/
theorem stageCreateFiles_eq (env : Env) (fs : Filesystem) :
    stageCreateFiles env fs = createFiles env fs := by
  unfold stageCreateFiles createFiles
  simp only [stageWriteFsFiles_eq]

/-- The two wrapped call sites agree on every input. -/
theorem stageCreateFilesWrapped_eq (env : Env) (fs : Filesystem) :
    stageCreateFilesWrapped env fs = createFilesWrapped env fs := by
  unfold stageCreateFilesWrapped createFilesWrapped
  rw [stageCreateFiles_eq]

/-- The two per-filesystem loop bodies agree on every input. -/
theorem stageCreateFs1_eq (env : Env) (fs : Filesystem) :
    stageCreateFs1 env fs = createFs1 env fs := by
  unfold stageCreateFs1 createFs1
  rw [stageCreateFilesWrapped_eq]

/-- The two filesystem phases agree on every input. -/
theorem stageCreateFilesystems_eq (env : Env) (cfg : Config) :
    stageCreateFilesystems env cfg = createFilesystems env cfg := by
  unfold stageCreateFilesystems createFilesystems
  rw [show stageCreateFs1 env = createFs1 env from
    funext (stageCreateFs1_eq env)]
  rfl

/-- C10: the two Run implementations diverge only in the final phase: the
partition, raid and filesystem phases of the stages variant produce the same
outcome as those of the exec variant on every input; the stages variant
never emits a unit-phase event (no unit file, drop-in, preset entry, mask
link or networkd file); and the exec Run is the stages Run followed by the
unit phase, while on a failing stages Run both agree exactly. -/
theorem stage_variant_is_exec_minus_unit_phase (env : Env) (root : String)
    (cfg : Config) :
    stageCreatePartitions env cfg = createPartitions env cfg ∧
    stageCreateRaids env cfg = createRaids env cfg ∧
    stageCreateFilesystems env cfg = createFilesystems env cfg ∧
    (∀ e ∈ (stageRun env cfg).fst, isUnitEvent e = false) ∧
    ((stageRun env cfg).snd = true →
      storageRun env root cfg =
        ((stageRun env cfg).fst ++ (createUnits env root cfg).fst,
          ((createUnits env root cfg).snd).isNone)) ∧
    ((stageRun env cfg).snd = false →
      storageRun env root cfg = stageRun env cfg) := by
  refine ⟨rfl, rfl, stageCreateFilesystems_eq env cfg,
    stageRun_no_unit env cfg, ?_, ?_⟩ <;>
  · intro hside
    rcases h1 : createPartitions env cfg with ⟨p1, r1⟩
    rcases h2 : createRaids env cfg with ⟨p2, r2⟩
    rcases h3 : createFilesystems env cfg with ⟨p3, r3⟩
    rcases h4 : createUnits env root cfg with ⟨p4, r4⟩
    have s1 : stageCreatePartitions env cfg = (p1, r1) := h1
    have s2 : stageCreateRaids env cfg = (p2, r2) := h2
    have s3 : stageCreateFilesystems env cfg = (p3, r3) :=
      (stageCreateFilesystems_eq env cfg).trans h3
    cases r1 <;> cases r2 <;> cases r3 <;> cases r4 <;>
      simp [storageRun, stageRun, h1, h2, h3, h4, s1, s2, s3] at hside ⊢

/-- Closed instance of the variant-comparison theorem: on a configuration
with one disk and one systemd unit, the exec Run extends the stages Run by
exactly the unit-phase events. -/
theorem stage_variant_is_exec_minus_unit_phase_witness :
    storageRun envAll "/sysroot"
        { cfgOneDisk with systemdUnits := [unitSample] } =
      ([Event.wait ["/dev/sda"] "disks" true,
        Event.sgdiskBegin "/dev/sda",
        Event.sgdiskCommit "/dev/sda" true,
        Event.writeRootFile "/sysroot"
          { path := "/etc/systemd/system/example.service.d/10-a.conf",
            contents := "alpha", mode := 420, uid := 0, gid := 0 } true,
        Event.mkdirForFile
          "/sysroot/etc/systemd/system-preset/20-ignition.preset" true,
        Event.openAppendCreate
          "/sysroot/etc/systemd/system-preset/20-ignition.preset" 420 true,
        Event.appendString
          "/sysroot/etc/systemd/system-preset/20-ignition.preset"
          "enable example.service\n" true,
        Event.mkdirForFile "/sysroot/etc/systemd/system/example.service" true,
        Event.symlink "/dev/null"
          "/sysroot/etc/systemd/system/example.service" true],
        true) := by
  have h :=
    (stage_variant_is_exec_minus_unit_phase envAll "/sysroot"
        { cfgOneDisk with systemdUnits := [unitSample] }).2.2.2.2.1
      (by decide)
  exact h.trans (by decide)

end Ignition
